import Mathlib

/-!
Verification development for the webgl-ar-viewer repository: a browser 3D
model viewer (src/main.js, ModelViewer, ARMode, ModelLoader, WebXRUtils).

The JavaScript sources are shallowly embedded: pure helpers become Lean
functions; the stateful controller (WebGLARApp together with the
ModelViewer and ARMode components it owns) becomes explicit state passing
on an `AppState` record; browser/platform calls (file parsing, WebXR
session and hit-test requests, getUserMedia) are modelled by outcome
parameters, and the sequence of platform calls an operation performs is
returned as an explicit event trace.
-/

/-- A user-selected or dropped browser `File`: for this program only its
`name` and `size` (in bytes) are inspected. -/
structure File where
  name : String
  size : Nat
deriving DecidableEq, Repr

/-- JavaScript `String.prototype.endsWith`: the receiver's character
sequence ends with the argument's character sequence. -/
def jsEndsWith (s pat : String) : Bool :=
  List.isSuffixOf pat.data s.data

/-- JavaScript `String.prototype.toLowerCase`, character-wise (the file
extensions involved are ASCII). -/
def jsToLower (s : String) : String :=
  ⟨s.data.map Char.toLower⟩

instance {ε α : Type} [DecidableEq ε] [DecidableEq α] :
    DecidableEq (Except ε α) := fun a b =>
  match a, b with
  | .error e₁, .error e₂ =>
      if h : e₁ = e₂ then .isTrue (by rw [h]) else .isFalse (by simp [h])
  | .error _, .ok _ => .isFalse (by simp)
  | .ok _, .error _ => .isFalse (by simp)
  | .ok a₁, .ok a₂ =>
      if h : a₁ = a₂ then .isTrue (by rw [h]) else .isFalse (by simp [h])

namespace ModelLoader

/-- `ModelLoader.supportedExtensions` from `validateFile`. -/
def supportedExtensions : List String := [".glb", ".gltf", ".stl"]

/-- The 50MB limit from `ModelLoader.validateFile`:
`const maxSize = 50 * 1024 * 1024`. -/
def maxSize : Nat := 50 * 1024 * 1024

/-- `ModelLoader.validateFile(file)`: throws on an unsupported extension
(checked on the lower-cased name), then on an oversized file; otherwise
returns `true`.  Thrown errors are modelled as `Except.error` carrying the
message string. -/
def validateFile (file : File) : Except String Bool :=
  let fileName := jsToLower file.name
  let isSupported := supportedExtensions.any fun ext => jsEndsWith fileName ext
  if !isSupported then
    .error ("Unsupported file format. Supported formats: " ++
      String.intercalate ", " supportedExtensions)
  else if file.size > maxSize then
    .error "File too large. Maximum size: 50MB"
  else
    .ok true

/-- The result of the extension dispatch in `ModelLoader.loadModel`:
which delegated parser is invoked, or the thrown error. -/
inductive LoadDispatch where
  | gltfParser
  | stlParser
  | unsupportedError (msg : String)
deriving DecidableEq, Repr

/-- `ModelLoader.loadModel(file)`: dispatch on the lower-cased file name's
extension to `loadGLTF`, `loadSTL`, or a thrown `Unsupported file format`
error.  The delegated parsers themselves are third-party code; the
dispatch result records which one is called. -/
def loadModel (file : File) : LoadDispatch :=
  let fileName := jsToLower file.name
  if jsEndsWith fileName ".glb" || jsEndsWith fileName ".gltf" then
    .gltfParser
  else if jsEndsWith fileName ".stl" then
    .stlParser
  else
    .unsupportedError ("Unsupported file format: " ++ fileName)

end ModelLoader

/-- A node of the three.js scene graph, as far as this program's own code
populates it: the three lights added by `ModelViewer.setupLighting`, the
AR placement reticle, and model objects (loaded models and AR-placed
clones), identified by an id (fresh ids stand for distinct objects). -/
inductive SceneNode where
  | light (kind : String)
  | reticle
  | model (id : Nat)
deriving DecidableEq, Repr

/-- The combined mutable state of `WebGLARApp` and the `ModelViewer` and
`ARMode` components it constructs.  Object-reference fields that the
claims never inspect beyond null-ness (`xrSession`, `xrRefSpace`,
`xrHitTestSource`, `reticle`) are modelled as Booleans recording
non-nullness.  Positions, scales, lighting intensities, the camera
background video element and console logging are not tracked. -/
structure AppState where
  /-- `ModelViewer.scene` children added by this program's code. -/
  scene : List SceneNode
  /-- `ModelViewer.currentModel`. -/
  viewerCurrentModel : Option Nat
  /-- `WebGLARApp.currentModel` (the loader result; identified by the id
  of its `.model` object). -/
  currentModel : Option Nat
  /-- `ARMode.placedModel`. -/
  placedModel : Option Nat
  /-- `ARMode.xrSession !== null`. -/
  xrSessionActive : Bool
  /-- `ARMode.xrRefSpace !== null`. -/
  xrRefSpaceActive : Bool
  /-- `ARMode.xrHitTestSource !== null`. -/
  hitTestSourceActive : Bool
  /-- `ARMode.reticle !== null`. -/
  reticlePresent : Bool
  /-- `ARMode.reticle.visible`. -/
  reticleVisible : Bool
  /-- `ARMode.isARSupported`. -/
  isARSupported : Bool
  /-- `WebGLARApp.isARActive`. -/
  isARActive : Bool
  /-- `WebGLARApp.hasWebXR`. -/
  hasWebXR : Bool
  /-- `WebGLARApp.isIOS`. -/
  isIOS : Bool
  /-- `WebGLARApp.arButton.disabled`. -/
  arButtonDisabled : Bool
  /-- `WebGLARApp.arButton.textContent`. -/
  arButtonText : String
  /-- The error div: `some msg` when visible showing `msg`
  (`showError` / `hideError`). -/
  errorShown : Option String
  /-- The loading div visibility (`showLoading` / `hideLoading`). -/
  loadingShown : Bool
  /-- Source of fresh ids for newly parsed models and AR clones. -/
  nextId : Nat
deriving DecidableEq, Repr

/-- Platform / third-party calls an operation performs, in order. -/
inductive Ev where
  | enterARCall
  | exitARCall
  | startSimulationCall
  | parseGLTF
  | parseSTL
  | requestSession (mode : String) (requiredFeatures : List String)
  | requestRefSpace (kind : String)
  | requestHitTestSource
  | getHitTestResults
  | requestCamera
deriving DecidableEq, Repr

/-- Result of an awaited asynchronous model parse (`loadGLTF`/`loadSTL`):
success, or rejection with an error message. -/
inductive ParseOutcome where
  | ok
  | err (msg : String)
deriving DecidableEq, Repr

/-- Outcomes of the awaited WebXR / media platform calls that an AR-button
press may perform.  Each is resolution (`.ok`) or rejection with the
error's message. -/
structure AROutcome where
  /-- `navigator.xr.requestSession('immersive-ar', ...)`. -/
  sessionReq : Except String Unit
  /-- `xrSession.requestReferenceSpace('local-floor')`. -/
  refSpaceLocalFloor : Except String Unit
  /-- `session.requestReferenceSpace('viewer')` in `setupHitTest`. -/
  refSpaceViewer : Except String Unit
  /-- `session.requestHitTestSource({ space: viewerSpace })`. -/
  hitTestSrc : Except String Unit
  /-- `navigator.mediaDevices.getUserMedia(...)` in `setupCameraBackground`. -/
  cameraReq : Except String Unit
deriving Repr

namespace ModelViewer

/-- `ModelViewer.clearCurrentModel()`: remove the current model from the
scene and null the reference. -/
def clearCurrentModel (s : AppState) : AppState :=
  match s.viewerCurrentModel with
  | some m =>
      { s with scene := s.scene.erase (SceneNode.model m),
               viewerCurrentModel := none }
  | none => s

end ModelViewer

namespace ARMode

/-- `ARMode.checkARSupport()`: store the platform's
`isSessionSupported('immersive-ar')` answer. -/
def checkARSupport (s : AppState) (supported : Bool) : AppState :=
  { s with isARSupported := supported }

/-- `ARMode.startARSession()`: throws if AR is unsupported, then awaits
the session request, the 'local-floor' reference space
(`setupXRSession`), creates the reticle, and awaits the 'viewer'
reference space and hit-test source (`setupHitTest`).  Returns the state
reached, the trace of platform calls, and `some msg` when an awaited call
rejected (the error propagates to the caller); state changes made before
a rejection persist, as in the source. -/
def startARSession (s : AppState) (o : AROutcome) :
    AppState × List Ev × Option String :=
  if !s.isARSupported then
    (s, [], some "AR not supported on this device")
  else
    match o.sessionReq with
    | .error e => (s, [.requestSession "immersive-ar" ["hit-test"]], some e)
    | .ok _ =>
      match o.refSpaceLocalFloor with
      | .error e =>
          ({ s with xrSessionActive := true },
           [.requestSession "immersive-ar" ["hit-test"],
            .requestRefSpace "local-floor"], some e)
      | .ok _ =>
        match o.refSpaceViewer with
        | .error e =>
            ({ s with xrSessionActive := true, xrRefSpaceActive := true,
                      scene := s.scene ++ [SceneNode.reticle],
                      reticlePresent := true, reticleVisible := false },
             [.requestSession "immersive-ar" ["hit-test"],
              .requestRefSpace "local-floor",
              .requestRefSpace "viewer"], some e)
        | .ok _ =>
          match o.hitTestSrc with
          | .error e =>
              ({ s with xrSessionActive := true, xrRefSpaceActive := true,
                        scene := s.scene ++ [SceneNode.reticle],
                        reticlePresent := true, reticleVisible := false },
               [.requestSession "immersive-ar" ["hit-test"],
                .requestRefSpace "local-floor",
                .requestRefSpace "viewer",
                .requestHitTestSource], some e)
          | .ok _ =>
              ({ s with xrSessionActive := true, xrRefSpaceActive := true,
                        scene := s.scene ++ [SceneNode.reticle],
                        reticlePresent := true, reticleVisible := false,
                        hitTestSourceActive := true },
               [.requestSession "immersive-ar" ["hit-test"],
                .requestRefSpace "local-floor",
                .requestRefSpace "viewer",
                .requestHitTestSource], none)

/-- `ARMode.placeModel(hitPose)`: clone the current model, remove the
previously placed clone from the scene, add the new clone, hide the
reticle.  The hit pose only positions the clone, which is not tracked. -/
def placeModel (s : AppState) : AppState :=
  match s.viewerCurrentModel with
  | none => s
  | some _ =>
    match s.placedModel with
    | some p =>
        { s with scene := s.scene.erase (SceneNode.model p) ++
                   [SceneNode.model s.nextId],
                 placedModel := some s.nextId,
                 reticleVisible := false,
                 nextId := s.nextId + 1 }
    | none =>
        { s with scene := s.scene ++ [SceneNode.model s.nextId],
                 placedModel := some s.nextId,
                 reticleVisible := false,
                 nextId := s.nextId + 1 }

/-- The reticle-removal step of `onSessionEnd`. -/
def removeReticle (s : AppState) : AppState :=
  if s.reticlePresent then
    { s with scene := s.scene.erase SceneNode.reticle,
             reticlePresent := false, reticleVisible := false }
  else s

/-- The placed-clone removal step of `onSessionEnd`. -/
def removePlacedModel (s : AppState) : AppState :=
  match s.placedModel with
  | some p =>
      { s with scene := s.scene.erase (SceneNode.model p),
               placedModel := none }
  | none => s

/-- `ARMode.onSessionEnd()`: null the session, reference-space and
hit-test references, remove the reticle and the placed clone from the
scene, reset the renderer and lighting (the latter two untracked). -/
def onSessionEnd (s : AppState) : AppState :=
  removePlacedModel (removeReticle
    { s with xrSessionActive := false, xrRefSpaceActive := false,
             hitTestSourceActive := false })

/-- `ARMode.endARSession()`: end the platform session when one is active;
the session's 'end' event runs `onSessionEnd`. -/
def endARSession (s : AppState) : AppState :=
  if s.xrSessionActive then onSessionEnd s else s

/-- One XR frame as seen by `ARMode.onXRFrame`: the hit-test results
(each with its pose against the reference space, when available) and
whether an input source's primary button is pressed. -/
structure XRFrameData where
  hits : List (Option Nat)
  pressed : Bool
deriving DecidableEq, Repr

/-- `ARMode.onXRFrame(frame)`: when a hit-test source exists, read the
frame's hit-test results once; show the reticle on a posed hit and place
the model on a tap, hide it when there are no hits. -/
def onXRFrame (s : AppState) (f : XRFrameData) : AppState × List Ev :=
  if s.hitTestSourceActive then
    match f.hits with
    | [] => ({ s with reticleVisible := false }, [.getHitTestResults])
    | h :: _ =>
      match h with
      | none => (s, [.getHitTestResults])
      | some _ =>
        if f.pressed then
          (placeModel { s with reticleVisible := true }, [.getHitTestResults])
        else
          ({ s with reticleVisible := true }, [.getHitTestResults])
  else (s, [])

end ARMode

namespace WebGLARApp

/-- The "clear current model and add new one" step of a successful
`WebGLARApp.loadModel`: the freshly parsed model gets the next fresh id
and becomes both `modelViewer.currentModel` and the app's
`currentModel`. -/
def addParsedModel (s : AppState) : AppState :=
  { s with scene := s.scene ++ [SceneNode.model s.nextId],
           viewerCurrentModel := some s.nextId,
           currentModel := some s.nextId,
           nextId := s.nextId + 1 }

/-- The AR-button update on a successful load (WebXR / iOS-fallback /
unsupported cases). -/
def updateARButtonAfterLoad (s : AppState) : AppState :=
  if s.hasWebXR then
    { s with arButtonDisabled := false, arButtonText := "Enter AR Mode" }
  else if s.isIOS then
    { s with arButtonDisabled := false, arButtonText := "AR Simulation" }
  else s

/-- The success continuation of `WebGLARApp.loadModel` (lines 154-173 of
main.js): clear the previous model, add the freshly parsed one, update
the AR button, hide the loading indicator. -/
def installLoadedModel (s : AppState) : AppState :=
  { (updateARButtonAfterLoad (addParsedModel (ModelViewer.clearCurrentModel s))) with
      loadingShown := false }

/-- `WebGLARApp.loadModel(file)`: validate, show loading / hide error,
await the loader (dispatch plus delegated parse, whose outcome is the
`parse` parameter), and on success install the new model via
`installLoadedModel`; any thrown error is caught, shown via `showError`,
and loading is hidden. -/
def loadModel (s : AppState) (file : File) (parse : ParseOutcome) :
    AppState × List Ev :=
  match ModelLoader.validateFile file with
  | .error e =>
      ({ s with errorShown := some ("Failed to load model: " ++ e),
                loadingShown := false }, [])
  | .ok _ =>
    match ModelLoader.loadModel file with
    | .unsupportedError msg =>
        ({ s with errorShown := some ("Failed to load model: " ++ msg),
                  loadingShown := false }, [])
    | .gltfParser =>
      match parse with
      | .err msg =>
          ({ s with errorShown := some ("Failed to load model: " ++ msg),
                    loadingShown := false }, [.parseGLTF])
      | .ok =>
          (installLoadedModel { s with loadingShown := true,
                                       errorShown := none }, [.parseGLTF])
    | .stlParser =>
      match parse with
      | .err msg =>
          ({ s with errorShown := some ("Failed to load model: " ++ msg),
                    loadingShown := false }, [.parseSTL])
      | .ok =>
          (installLoadedModel { s with loadingShown := true,
                                       errorShown := none }, [.parseSTL])

/-- `WebGLARApp.startBasicARSimulation()`: fullscreen AR-like view with a
sky background and repositioned model (transforms untracked), shown
instructions. -/
def startBasicARSimulation (s : AppState) : AppState :=
  { s with isARActive := true,
           arButtonText := "Exit AR Simulation",
           errorShown := some "📱 Basic AR Simulation: Move your device to view the model from different angles." }

/-- `WebGLARApp.startARSimulation()`: await camera access for the AR
background; on success switch to the camera-backed simulation and show
instructions; a camera failure is caught, a denial notice is shown, and
the basic (no-camera) simulation is started instead. -/
def startARSimulation (s : AppState) (o : AROutcome) : AppState × List Ev :=
  match o.cameraReq with
  | .ok _ =>
      ({ s with isARActive := true,
                arButtonText := "Exit AR Simulation",
                errorShown := some "📱 iOS AR Simulation: Camera active! Move your device to view the model. The model appears on a virtual surface." },
       [.requestCamera])
  | .error _ =>
      (startBasicARSimulation
        { s with errorShown := some "📱 Camera access denied. Using basic AR simulation without camera." },
       [.requestCamera])

/-- `WebGLARApp.enterAR()`: reject without side effects when no model is
loaded; otherwise show loading and either await `ARMode.startARSession`
(WebXR) — on success activating AR and the frame loop, on rejection
showing the error — or start the AR simulation.  The un-awaited
`startARSimulation()` call is modelled as completing before `enterAR`
returns; it touches no field that `enterAR` writes afterwards. -/
def enterAR (s : AppState) (o : AROutcome) : AppState × List Ev :=
  match s.currentModel with
  | none =>
      ({ s with errorShown := some "Please load a 3D model first" },
       [.enterARCall])
  | some _ =>
    if s.hasWebXR then
      match ARMode.startARSession { s with loadingShown := true } o with
      | (s1, tr, some e) =>
          ({ s1 with errorShown := some ("AR failed: " ++ e),
                     loadingShown := false }, .enterARCall :: tr)
      | (s1, tr, none) =>
          ({ s1 with isARActive := true, arButtonText := "Exit AR",
                     loadingShown := false }, .enterARCall :: tr)
    else
      match startARSimulation { s with loadingShown := true } o with
      | (s1, tr) =>
          ({ s1 with loadingShown := false },
           .enterARCall :: .startSimulationCall :: tr)

/-- `WebGLARApp.exitAR()`: in WebXR mode end the platform session (whose
'end' event runs `onSessionEnd`); in simulation mode stop the camera,
reset camera, background and model transform (untracked) and hide the
error; then deactivate AR and restore the button label
(`hasWebXR ? 'Enter AR Mode' : 'AR Simulation'`, resolved per branch since
neither branch changes `hasWebXR`). -/
def exitAR (s : AppState) : AppState × List Ev :=
  if s.hasWebXR then
    ({ (ARMode.endARSession s) with
         isARActive := false,
         arButtonText := "Enter AR Mode" }, [.exitARCall])
  else
    ({ s with errorShown := none, isARActive := false,
              arButtonText := "AR Simulation" }, [.exitARCall])

/-- The AR button's click listener in `setupEventListeners`. -/
def onARButtonClick (s : AppState) (o : AROutcome) : AppState × List Ev :=
  if s.isARActive then exitAR s else enterAR s o

/-- The result object of `WebXRUtils.checkWebXRSupport()` as consumed by
`WebGLARApp.checkWebXRSupport` (feature detection of the browser,
modelled as an outcome). -/
structure XRSupport where
  ar : Bool
  reason : String
deriving DecidableEq, Repr

/-- The AR-button state chosen by `checkWebXRSupport` when WebXR AR is
unsupported. -/
def noXRButtonFallback (s : AppState) : AppState :=
  if s.isIOS && s.currentModel.isSome then
    { s with arButtonDisabled := false, arButtonText := "AR Simulation" }
  else if s.isIOS then
    { s with arButtonDisabled := true, arButtonText := "Load Model First" }
  else
    { s with arButtonDisabled := true, arButtonText := "AR Not Supported" }

/-- `WebGLARApp.checkWebXRSupport()`: record WebXR AR support and set the
AR button accordingly (iOS fallback states included); on mobile user
agents without support, a debug notice is shown. -/
def checkWebXRSupport (s : AppState) (support : XRSupport)
    (isMobileUA : Bool) (ua : String) : AppState :=
  if support.ar then
    { s with hasWebXR := true, arButtonDisabled := false,
             arButtonText := "Enter AR Mode" }
  else if isMobileUA then
    { (noXRButtonFallback { s with hasWebXR := false }) with
        errorShown := some ("AR Debug: " ++ support.reason ++
          ". Device: " ++ ua ++ "...") }
  else
    noXRButtonFallback { s with hasWebXR := false }

/-- The AR animation loop set by `enterAR`: `onXRFrame` runs once per
frame delivered by the platform. -/
def runFrames (s : AppState) (frames : List ARMode.XRFrameData) :
    AppState × List Ev :=
  match frames with
  | [] => (s, [])
  | f :: rest =>
    let (s1, tr1) := ARMode.onXRFrame s f
    let (s2, tr2) := runFrames s1 rest
    (s2, tr1 ++ tr2)

/-- An AR-button press followed by the frames the platform delivers while
the session runs; frames are delivered to `onXRFrame` only when AR
actually became active (the loop is set only on `startARSession`
success). -/
def enterARAndRun (s : AppState) (o : AROutcome)
    (frames : List ARMode.XRFrameData) : AppState × List Ev :=
  let (s1, tr1) := enterAR s o
  if s1.isARActive then
    let (s2, tr2) := runFrames s1 frames
    (s2, tr1 ++ tr2)
  else (s1, tr1)

/-- The state after `WebGLARApp`'s constructor and `ModelViewer.init`:
three lights in the scene, no model, AR inactive, AR button disabled as
in the page markup. -/
def initState (isIOS : Bool) : AppState :=
  { scene := [SceneNode.light "ambient", SceneNode.light "directional",
              SceneNode.light "point"],
    viewerCurrentModel := none, currentModel := none, placedModel := none,
    xrSessionActive := false, xrRefSpaceActive := false,
    hitTestSourceActive := false, reticlePresent := false,
    reticleVisible := false, isARSupported := false, isARActive := false,
    hasWebXR := false, isIOS := isIOS, arButtonDisabled := true,
    arButtonText := "Enter AR Mode", errorShown := none,
    loadingShown := false, nextId := 0 }

end WebGLARApp

/-- One user- or platform-initiated operation of the app. -/
inductive Step : AppState → AppState → Prop where
  | load (s : AppState) (file : File) (p : ParseOutcome) :
      Step s (WebGLARApp.loadModel s file p).1
  | click (s : AppState) (o : AROutcome) :
      Step s (WebGLARApp.onARButtonClick s o).1
  | frame (s : AppState) (f : ARMode.XRFrameData) :
      Step s (ARMode.onXRFrame s f).1
  | sessionEnd (s : AppState) :
      Step s (ARMode.onSessionEnd s)
  | checkSupport (s : AppState) (sup : WebGLARApp.XRSupport)
      (mob : Bool) (ua : String) :
      Step s (WebGLARApp.checkWebXRSupport s sup mob ua)
  | checkAR (s : AppState) (b : Bool) :
      Step s (ARMode.checkARSupport s b)

/-- States reachable from a freshly initialised app. -/
def Reachable (isIOS : Bool) (s : AppState) : Prop :=
  Relation.ReflTransGen Step (WebGLARApp.initState isIOS) s

/-- Projection selecting model objects among scene nodes. -/
def sceneProj : SceneNode → Option Nat := fun n =>
  match n with
  | .model i => some i
  | _ => none

/-- The ids of the model objects currently in the scene. -/
def modelIds (s : AppState) : List Nat :=
  s.scene.filterMap sceneProj

/-- The model-ownership invariant of the app: the scene's model objects
are exactly the viewer's current model (when present) plus the AR-placed
clone (when present); all ids are below the fresh-id source and the two
are distinct. -/
def AppInv (s : AppState) : Prop :=
  (modelIds s).Perm (s.viewerCurrentModel.toList ++ s.placedModel.toList) ∧
  (∀ i ∈ s.viewerCurrentModel.toList, i < s.nextId) ∧
  (∀ i ∈ s.placedModel.toList, i < s.nextId) ∧
  (∀ i ∈ s.viewerCurrentModel.toList, ∀ j ∈ s.placedModel.toList, i ≠ j)

instance (s : AppState) : Decidable (AppInv s) := by
  unfold AppInv
  infer_instance

/-- An outcome where every awaited platform call resolves. -/
def oOk : AROutcome :=
  { sessionReq := .ok (), refSpaceLocalFloor := .ok (),
    refSpaceViewer := .ok (), hitTestSrc := .ok (), cameraReq := .ok () }

/-- A small well-formed GLB file. -/
def glbFile : File := { name := "model.glb", size := 10 }

/-- A file with an unsupported extension. -/
def txtFile : File := { name := "notes.txt", size := 10 }

/-- A fresh non-iOS app. -/
def sInit : AppState := WebGLARApp.initState false

/-- `sInit` after the startup support checks, on a WebXR-capable
browser. -/
def sSupported : AppState :=
  ARMode.checkARSupport
    (WebGLARApp.checkWebXRSupport sInit
      { ar := true, reason := "WebXR supported" } false "ua")
    true

/-- `sSupported` after successfully loading `glbFile`. -/
def sLoaded : AppState :=
  (WebGLARApp.loadModel sSupported glbFile .ok).1

/-- `sLoaded` after pressing the AR button with every platform call
resolving: an active WebXR AR session. -/
def sAR : AppState := (WebGLARApp.onARButtonClick sLoaded oOk).1

/-- A frame with one posed hit and a pressed input source: a placement
tap. -/
def tapFrame : ARMode.XRFrameData := { hits := [some 0], pressed := true }

/-- `sAR` after a placement tap: the loaded model's clone is placed. -/
def sPlaced : AppState := (ARMode.onXRFrame sAR tapFrame).1

/-- Two strings that cannot be suffixes of one another cannot both be
suffixes of the same string. -/
theorem jsEndsWith_excl {s p q : String}
    (h : jsEndsWith s p = true) (hq : jsEndsWith s q = true)
    (hpq : ¬ (p.data <:+ q.data)) (hqp : ¬ (q.data <:+ p.data)) : False := by
  rw [jsEndsWith, List.isSuffixOf_iff_suffix] at h hq
  rcases List.suffix_or_suffix_of_suffix h hq with h3 | h3
  · exact hpq h3
  · exact hqp h3

/-- C1: `ModelLoader.validateFile(file)` returns `true` exactly when the
lower-cased name ends with '.glb', '.gltf' or '.stl' and the size is at
most 50MB; unsupported extensions throw an 'Unsupported file format'
error, supported but oversized files a 'File too large' error. -/
theorem validateFile_correct (file : File) :
    (ModelLoader.validateFile file = .ok true ↔
      ((jsEndsWith (jsToLower file.name) ".glb" = true ∨
        jsEndsWith (jsToLower file.name) ".gltf" = true ∨
        jsEndsWith (jsToLower file.name) ".stl" = true) ∧
       file.size ≤ 50 * 1024 * 1024)) ∧
    ((jsEndsWith (jsToLower file.name) ".glb" = false ∧
      jsEndsWith (jsToLower file.name) ".gltf" = false ∧
      jsEndsWith (jsToLower file.name) ".stl" = false) →
      ModelLoader.validateFile file =
        .error "Unsupported file format. Supported formats: .glb, .gltf, .stl") ∧
    ((jsEndsWith (jsToLower file.name) ".glb" = true ∨
      jsEndsWith (jsToLower file.name) ".gltf" = true ∨
      jsEndsWith (jsToLower file.name) ".stl" = true) →
      file.size > 50 * 1024 * 1024 →
      ModelLoader.validateFile file =
        .error "File too large. Maximum size: 50MB") := by
  have hmsg : ("Unsupported file format. Supported formats: " ++
      String.intercalate ", " ModelLoader.supportedExtensions) =
      "Unsupported file format. Supported formats: .glb, .gltf, .stl" := by decide
  unfold ModelLoader.validateFile
  simp only [ModelLoader.supportedExtensions, ModelLoader.maxSize,
    List.any_cons, List.any_nil, Bool.or_false, hmsg]
  cases hglb : jsEndsWith (jsToLower file.name) ".glb" <;>
    cases hgltf : jsEndsWith (jsToLower file.name) ".gltf" <;>
      cases hstl : jsEndsWith (jsToLower file.name) ".stl" <;>
        by_cases hsz : file.size ≤ 50 * 1024 * 1024 <;>
          simp_all <;> decide

/-- C3: `ModelLoader.loadModel(file)` is a pure dispatch on the
lower-cased extension: '.glb'/'.gltf' delegate to the glTF parser, '.stl'
to the STL parser, anything else throws 'Unsupported file format' without
selecting either parser. -/
theorem loadModel_dispatch (file : File) :
    ((jsEndsWith (jsToLower file.name) ".glb" = true ∨
      jsEndsWith (jsToLower file.name) ".gltf" = true) →
      ModelLoader.loadModel file = .gltfParser) ∧
    (jsEndsWith (jsToLower file.name) ".stl" = true →
      ModelLoader.loadModel file = .stlParser) ∧
    ((jsEndsWith (jsToLower file.name) ".glb" = false ∧
      jsEndsWith (jsToLower file.name) ".gltf" = false ∧
      jsEndsWith (jsToLower file.name) ".stl" = false) →
      ModelLoader.loadModel file =
        .unsupportedError ("Unsupported file format: " ++ jsToLower file.name)) := by
  refine ⟨?_, ?_, ?_⟩
  · intro h
    unfold ModelLoader.loadModel
    rcases h with h | h <;> simp [h]
  · intro h
    have hglb : jsEndsWith (jsToLower file.name) ".glb" = false := by
      cases hg : jsEndsWith (jsToLower file.name) ".glb"
      · rfl
      · exact absurd (jsEndsWith_excl h hg (by decide) (by decide)) not_false
    have hgltf : jsEndsWith (jsToLower file.name) ".gltf" = false := by
      cases hg : jsEndsWith (jsToLower file.name) ".gltf"
      · rfl
      · exact absurd (jsEndsWith_excl h hg (by decide) (by decide)) not_false
    unfold ModelLoader.loadModel
    simp [hglb, hgltf, h]
  · intro ⟨h1, h2, h3⟩
    unfold ModelLoader.loadModel
    simp [h1, h2, h3]

/-- Erasing a model node from a scene list erases its id from the model
ids. -/
theorem filterMap_erase_model (l : List SceneNode) (m : Nat) :
    (l.erase (SceneNode.model m)).filterMap sceneProj =
      (l.filterMap sceneProj).erase m := by
  induction l with
  | nil => simp
  | cons a l ih =>
    by_cases h : a = SceneNode.model m
    · subst h
      simp [List.erase_cons_head, sceneProj]
    · rw [List.erase_cons_tail (by simp [h])]
      match a with
      | .model j =>
        have hj : j ≠ m := fun hh => h (by rw [hh])
        rw [List.filterMap_cons, List.filterMap_cons]
        simp only [sceneProj]
        rw [ih, List.erase_cons_tail (by simp [hj])]
      | .light k => simp [sceneProj, ih]
      | .reticle => simp [sceneProj, ih]

/-- Erasing the reticle leaves the scene's model ids unchanged. -/
theorem filterMap_erase_reticle (l : List SceneNode) :
    (l.erase SceneNode.reticle).filterMap sceneProj =
      l.filterMap sceneProj := by
  induction l with
  | nil => simp
  | cons a l ih =>
    by_cases h : a = SceneNode.reticle
    · subst h
      simp [List.erase_cons_head, sceneProj]
    · rw [List.erase_cons_tail (by simp [h])]
      match a with
      | .model j => simp [sceneProj, ih]
      | .light k => simp [sceneProj, ih]
      | .reticle => exact absurd rfl h

/-- `AppInv` only looks at the scene's model ids, the two model
references and the fresh-id source. -/
theorem appInv_of_eq {s t : AppState} (h : AppInv s)
    (hsc : modelIds t = modelIds s)
    (hv : t.viewerCurrentModel = s.viewerCurrentModel)
    (hp : t.placedModel = s.placedModel) (hn : t.nextId = s.nextId) :
    AppInv t := by
  unfold AppInv at *
  rw [hsc, hv, hp, hn]
  exact h

/-- After `clearCurrentModel` the scene's models are exactly the placed
clone (when present). -/
theorem clear_modelIds (s : AppState) (h : AppInv s) :
    (modelIds (ModelViewer.clearCurrentModel s)).Perm
      s.placedModel.toList := by
  obtain ⟨hperm, -, -, -⟩ := h
  unfold ModelViewer.clearCurrentModel
  cases hv : s.viewerCurrentModel with
  | none =>
    rw [hv] at hperm
    simpa using hperm
  | some m =>
    show ((s.scene.erase (SceneNode.model m)).filterMap sceneProj).Perm _
    rw [filterMap_erase_model]
    have h2 := hperm.erase m
    rw [hv] at h2
    simpa using h2

/-- The non-scene fields that `clearCurrentModel` leaves alone. -/
theorem clear_fields (s : AppState) :
    (ModelViewer.clearCurrentModel s).viewerCurrentModel = none ∧
    (ModelViewer.clearCurrentModel s).placedModel = s.placedModel ∧
    (ModelViewer.clearCurrentModel s).nextId = s.nextId := by
  unfold ModelViewer.clearCurrentModel
  cases hv : s.viewerCurrentModel <;> simp_all

/-- `addParsedModel` restores the invariant on a cleared state. -/
theorem appInv_addParsedModel (t : AppState)
    (hperm : (modelIds t).Perm t.placedModel.toList)
    (hpn : ∀ i ∈ t.placedModel.toList, i < t.nextId) :
    AppInv (WebGLARApp.addParsedModel t) := by
  unfold AppInv WebGLARApp.addParsedModel
  refine ⟨?_, ?_, ?_, ?_⟩
  · show ((t.scene ++ [SceneNode.model t.nextId]).filterMap sceneProj).Perm _
    rw [List.filterMap_append]
    simp only [List.filterMap_cons, List.filterMap_nil, sceneProj,
      Option.toList_some]
    show ((t.scene.filterMap sceneProj) ++ [t.nextId]).Perm
      (t.nextId :: t.placedModel.toList)
    exact ((hperm.append_right _).trans List.perm_append_comm)
  · intro i hi
    simp only [Option.toList_some, List.mem_singleton] at hi
    subst hi
    show t.nextId < t.nextId + 1
    omega
  · intro i hi
    have := hpn i hi
    show i < t.nextId + 1
    omega
  · intro i hi j hj
    simp only [Option.toList_some, List.mem_singleton] at hi
    subst hi
    have := hpn j hj
    omega

/-- The AR-button update after a load does not touch the model data. -/
theorem appInv_updateARButtonAfterLoad (s : AppState) (h : AppInv s) :
    AppInv (WebGLARApp.updateARButtonAfterLoad s) := by
  unfold WebGLARApp.updateARButtonAfterLoad
  split
  · exact appInv_of_eq h rfl rfl rfl rfl
  · split
    · exact appInv_of_eq h rfl rfl rfl rfl
    · exact h

/-- `installLoadedModel` preserves the model-ownership invariant. -/
theorem appInv_installLoadedModel (s : AppState) (h : AppInv s) :
    AppInv (WebGLARApp.installLoadedModel s) := by
  obtain ⟨-, hc₂, hc₃⟩ := clear_fields s
  have h1 : AppInv
      (WebGLARApp.addParsedModel (ModelViewer.clearCurrentModel s)) := by
    refine appInv_addParsedModel _ ?_ ?_
    · rw [hc₂]
      exact clear_modelIds s h
    · rw [hc₂, hc₃]
      exact h.2.2.1
  have h2 := appInv_updateARButtonAfterLoad _ h1
  unfold WebGLARApp.installLoadedModel
  exact appInv_of_eq h2 rfl rfl rfl rfl

/-- `WebGLARApp.loadModel` preserves the model-ownership invariant. -/
theorem appInv_loadModel (s : AppState) (file : File) (p : ParseOutcome)
    (h : AppInv s) : AppInv (WebGLARApp.loadModel s file p).1 := by
  unfold WebGLARApp.loadModel
  split
  · exact appInv_of_eq h rfl rfl rfl rfl
  · split
    · exact appInv_of_eq h rfl rfl rfl rfl
    · match p with
      | .err msg => exact appInv_of_eq h rfl rfl rfl rfl
      | .ok =>
        exact appInv_installLoadedModel _ (appInv_of_eq h rfl rfl rfl rfl)
    · match p with
      | .err msg => exact appInv_of_eq h rfl rfl rfl rfl
      | .ok =>
        exact appInv_installLoadedModel _ (appInv_of_eq h rfl rfl rfl rfl)

/-- `ARMode.placeModel` preserves the model-ownership invariant. -/
theorem appInv_placeModel (s : AppState) (h : AppInv s) :
    AppInv (ARMode.placeModel s) := by
  obtain ⟨hperm, hvn, hpn, hdist⟩ := h
  unfold ARMode.placeModel
  cases hv : s.viewerCurrentModel with
  | none => exact ⟨hperm, hvn, hpn, hdist⟩
  | some v =>
    have hvlt : v < s.nextId := hvn v (by rw [hv]; simp)
    rw [hv] at hperm
    cases hp : s.placedModel with
    | none =>
      rw [hp] at hperm
      simp only [Option.toList_some, Option.toList_none,
        List.append_nil] at hperm
      show AppInv { s with scene := s.scene ++ [SceneNode.model s.nextId],
                           viewerCurrentModel := some v,
                           placedModel := some s.nextId,
                           reticleVisible := false,
                           nextId := s.nextId + 1 }
      refine ⟨?_, ?_, ?_, ?_⟩
      · show ((s.scene ++ [SceneNode.model s.nextId]).filterMap sceneProj).Perm
          ((some v).toList ++ (some s.nextId).toList)
        rw [List.filterMap_append]
        simp only [List.filterMap_cons, List.filterMap_nil, sceneProj,
          Option.toList_some]
        exact hperm.append_right _
      · intro i hi
        simp only [Option.toList_some, List.mem_singleton] at hi
        show i < s.nextId + 1
        omega
      · intro i hi
        simp only [Option.toList_some, List.mem_singleton] at hi
        show i < s.nextId + 1
        omega
      · intro i hi j hj
        simp only [Option.toList_some, List.mem_singleton] at hi hj
        omega
    | some q =>
      have hqlt : q < s.nextId := hpn q (by rw [hp]; simp)
      have hvq : v ≠ q := hdist v (by rw [hv]; simp) q (by rw [hp]; simp)
      rw [hp] at hperm
      simp only [Option.toList_some] at hperm
      replace hperm : (modelIds s).Perm (v :: [q]) := hperm
      show AppInv { s with scene := s.scene.erase (SceneNode.model q) ++
                             [SceneNode.model s.nextId],
                           viewerCurrentModel := some v,
                           placedModel := some s.nextId,
                           reticleVisible := false,
                           nextId := s.nextId + 1 }
      refine ⟨?_, ?_, ?_, ?_⟩
      · show (((s.scene.erase (SceneNode.model q)) ++
          [SceneNode.model s.nextId]).filterMap sceneProj).Perm
          ((some v).toList ++ (some s.nextId).toList)
        rw [List.filterMap_append, filterMap_erase_model]
        simp only [List.filterMap_cons, List.filterMap_nil, sceneProj,
          Option.toList_some]
        have h2 := hperm.erase q
        rw [List.erase_cons_tail (by simp [hvq]), List.erase_cons_head] at h2
        exact h2.append_right _
      · intro i hi
        simp only [Option.toList_some, List.mem_singleton] at hi
        show i < s.nextId + 1
        omega
      · intro i hi
        simp only [Option.toList_some, List.mem_singleton] at hi
        show i < s.nextId + 1
        omega
      · intro i hi j hj
        simp only [Option.toList_some, List.mem_singleton] at hi hj
        omega

/-- `removeReticle` leaves the scene's model ids and the model fields
unchanged. -/
theorem removeReticle_fields (s : AppState) :
    modelIds (ARMode.removeReticle s) = modelIds s ∧
    (ARMode.removeReticle s).viewerCurrentModel = s.viewerCurrentModel ∧
    (ARMode.removeReticle s).placedModel = s.placedModel ∧
    (ARMode.removeReticle s).nextId = s.nextId := by
  unfold ARMode.removeReticle
  split
  · exact ⟨filterMap_erase_reticle s.scene, rfl, rfl, rfl⟩
  · exact ⟨rfl, rfl, rfl, rfl⟩

/-- `removePlacedModel` preserves the model-ownership invariant. -/
theorem appInv_removePlacedModel (s : AppState) (h : AppInv s) :
    AppInv (ARMode.removePlacedModel s) := by
  obtain ⟨hperm, hvn, hpn, hdist⟩ := h
  unfold ARMode.removePlacedModel
  cases hp : s.placedModel with
  | none => exact ⟨hperm, hvn, hpn, hdist⟩
  | some q =>
    rw [hp] at hperm
    show AppInv { s with scene := s.scene.erase (SceneNode.model q),
                         placedModel := none }
    refine ⟨?_, hvn, by simp, by simp⟩
    show ((s.scene.erase (SceneNode.model q)).filterMap sceneProj).Perm
      (s.viewerCurrentModel.toList ++ (none : Option Nat).toList)
    rw [filterMap_erase_model]
    simp only [Option.toList_none, List.append_nil]
    have h2 := hperm.erase q
    cases hv : s.viewerCurrentModel with
    | none =>
      rw [hv] at h2
      simp only [Option.toList_none, Option.toList_some,
        List.nil_append] at h2
      rw [List.erase_cons_head] at h2
      exact h2
    | some v =>
      have hvq : v ≠ q := hdist v (by rw [hv]; simp) q (by rw [hp]; simp)
      rw [hv] at h2
      simp only [Option.toList_some] at h2
      replace h2 : ((modelIds s).erase q).Perm ((v :: [q]).erase q) := h2
      rw [List.erase_cons_tail (by simp [hvq]), List.erase_cons_head] at h2
      exact h2

/-- `ARMode.onSessionEnd` preserves the model-ownership invariant. -/
theorem appInv_onSessionEnd (s : AppState) (h : AppInv s) :
    AppInv (ARMode.onSessionEnd s) := by
  unfold ARMode.onSessionEnd
  apply appInv_removePlacedModel
  obtain ⟨hrm, hrv, hrp, hrn⟩ := removeReticle_fields
    { s with xrSessionActive := false, xrRefSpaceActive := false,
             hitTestSourceActive := false }
  exact appInv_of_eq (appInv_of_eq h rfl rfl rfl rfl) hrm hrv hrp hrn

/-- Appending the reticle adds no model id. -/
theorem modelIds_append_reticle (l : List SceneNode) :
    (l ++ [SceneNode.reticle]).filterMap sceneProj =
      l.filterMap sceneProj := by
  rw [List.filterMap_append]
  simp [sceneProj]

/-- `ARMode.startARSession` preserves the model-ownership invariant in
every branch. -/
theorem appInv_startARSession (s : AppState) (o : AROutcome)
    (h : AppInv s) : AppInv (ARMode.startARSession s o).1 := by
  unfold ARMode.startARSession
  split
  · exact h
  · split
    · exact h
    · split
      · exact appInv_of_eq h rfl rfl rfl rfl
      · split
        · exact appInv_of_eq h (modelIds_append_reticle s.scene) rfl rfl rfl
        · split
          · exact appInv_of_eq h (modelIds_append_reticle s.scene) rfl rfl rfl
          · exact appInv_of_eq h (modelIds_append_reticle s.scene) rfl rfl rfl

/-- `startBasicARSimulation` preserves the model-ownership invariant. -/
theorem appInv_startBasicARSimulation (s : AppState) (h : AppInv s) :
    AppInv (WebGLARApp.startBasicARSimulation s) := by
  unfold WebGLARApp.startBasicARSimulation
  exact appInv_of_eq h rfl rfl rfl rfl

/-- `startARSimulation` preserves the model-ownership invariant. -/
theorem appInv_startARSimulation (s : AppState) (o : AROutcome)
    (h : AppInv s) : AppInv (WebGLARApp.startARSimulation s o).1 := by
  unfold WebGLARApp.startARSimulation
  split
  · exact appInv_of_eq h rfl rfl rfl rfl
  · exact appInv_startBasicARSimulation _ (appInv_of_eq h rfl rfl rfl rfl)

/-- `WebGLARApp.enterAR` preserves the model-ownership invariant. -/
theorem appInv_enterAR (s : AppState) (o : AROutcome) (h : AppInv s) :
    AppInv (WebGLARApp.enterAR s o).1 := by
  unfold WebGLARApp.enterAR
  split
  · exact appInv_of_eq h rfl rfl rfl rfl
  · split
    · split
      · rename_i heq
        have h2 := appInv_startARSession
          { s with loadingShown := true } o (appInv_of_eq h rfl rfl rfl rfl)
        rw [heq] at h2
        exact appInv_of_eq h2 rfl rfl rfl rfl
      · rename_i heq
        have h2 := appInv_startARSession
          { s with loadingShown := true } o (appInv_of_eq h rfl rfl rfl rfl)
        rw [heq] at h2
        exact appInv_of_eq h2 rfl rfl rfl rfl
    · split
      rename_i heq
      have h2 := appInv_startARSimulation
        { s with loadingShown := true } o (appInv_of_eq h rfl rfl rfl rfl)
      rw [heq] at h2
      exact appInv_of_eq h2 rfl rfl rfl rfl

/-- `ARMode.endARSession` preserves the model-ownership invariant. -/
theorem appInv_endARSession (s : AppState) (h : AppInv s) :
    AppInv (ARMode.endARSession s) := by
  unfold ARMode.endARSession
  split
  · exact appInv_onSessionEnd s h
  · exact h

/-- `WebGLARApp.exitAR` preserves the model-ownership invariant. -/
theorem appInv_exitAR (s : AppState) (h : AppInv s) :
    AppInv (WebGLARApp.exitAR s).1 := by
  unfold WebGLARApp.exitAR
  split
  · exact appInv_of_eq (appInv_endARSession s h) rfl rfl rfl rfl
  · exact appInv_of_eq h rfl rfl rfl rfl

/-- The AR-button click handler preserves the model-ownership
invariant. -/
theorem appInv_onARButtonClick (s : AppState) (o : AROutcome)
    (h : AppInv s) : AppInv (WebGLARApp.onARButtonClick s o).1 := by
  unfold WebGLARApp.onARButtonClick
  split
  · exact appInv_exitAR s h
  · exact appInv_enterAR s o h

/-- `ARMode.onXRFrame` preserves the model-ownership invariant. -/
theorem appInv_onXRFrame (s : AppState) (f : ARMode.XRFrameData)
    (h : AppInv s) : AppInv (ARMode.onXRFrame s f).1 := by
  unfold ARMode.onXRFrame
  split
  · split
    · exact appInv_of_eq h rfl rfl rfl rfl
    · split
      · exact h
      · split
        · exact appInv_placeModel _ (appInv_of_eq h rfl rfl rfl rfl)
        · exact appInv_of_eq h rfl rfl rfl rfl
  · exact h

/-- `noXRButtonFallback` preserves the model-ownership invariant. -/
theorem appInv_noXRButtonFallback (s : AppState) (h : AppInv s) :
    AppInv (WebGLARApp.noXRButtonFallback s) := by
  unfold WebGLARApp.noXRButtonFallback
  split
  · exact appInv_of_eq h rfl rfl rfl rfl
  · split
    · exact appInv_of_eq h rfl rfl rfl rfl
    · exact appInv_of_eq h rfl rfl rfl rfl

/-- `checkWebXRSupport` preserves the model-ownership invariant. -/
theorem appInv_checkWebXRSupport (s : AppState)
    (sup : WebGLARApp.XRSupport) (mob : Bool) (ua : String)
    (h : AppInv s) : AppInv (WebGLARApp.checkWebXRSupport s sup mob ua) := by
  unfold WebGLARApp.checkWebXRSupport
  split
  · exact appInv_of_eq h rfl rfl rfl rfl
  · split
    · refine appInv_of_eq (appInv_noXRButtonFallback
        { s with hasWebXR := false } (appInv_of_eq h rfl rfl rfl rfl))
        rfl rfl rfl rfl
    · exact appInv_noXRButtonFallback _ (appInv_of_eq h rfl rfl rfl rfl)

/-- `checkARSupport` preserves the model-ownership invariant. -/
theorem appInv_checkARSupport (s : AppState) (b : Bool) (h : AppInv s) :
    AppInv (ARMode.checkARSupport s b) := by
  unfold ARMode.checkARSupport
  exact appInv_of_eq h rfl rfl rfl rfl

/-- The freshly initialised app satisfies the model-ownership
invariant. -/
theorem appInv_initState (io : Bool) :
    AppInv (WebGLARApp.initState io) := by
  refine ⟨?_, ?_, ?_, ?_⟩ <;>
    simp [WebGLARApp.initState, modelIds, sceneProj]

/-- Every single operation preserves the model-ownership invariant. -/
theorem appInv_step {s t : AppState} (hst : Step s t) (h : AppInv s) :
    AppInv t := by
  cases hst with
  | load file p => exact appInv_loadModel s file p h
  | click o => exact appInv_onARButtonClick s o h
  | frame f => exact appInv_onXRFrame s f h
  | sessionEnd => exact appInv_onSessionEnd s h
  | checkSupport sup mob ua => exact appInv_checkWebXRSupport s sup mob ua h
  | checkAR b => exact appInv_checkARSupport s b h

/-- Every reachable state satisfies the model-ownership invariant. -/
theorem appInv_reachable {io : Bool} {s : AppState}
    (h : Reachable io s) : AppInv s := by
  unfold Reachable at h
  induction h with
  | refl => exact appInv_initState io
  | tail h1 h2 ih => exact appInv_step h2 ih

/-- A model node is in the scene iff its id is among the scene's model
ids. -/
theorem mem_model_iff (l : List SceneNode) (m : Nat) :
    SceneNode.model m ∈ l ↔ m ∈ l.filterMap sceneProj := by
  rw [List.mem_filterMap]
  constructor
  · intro h
    exact ⟨SceneNode.model m, h, rfl⟩
  · rintro ⟨a, ha, hfa⟩
    match a with
    | .model j =>
      simp only [sceneProj] at hfa
      rw [Option.some_inj] at hfa
      exact hfa ▸ ha
    | .light k => simp [sceneProj] at hfa
    | .reticle => simp [sceneProj] at hfa

/-- A file accepted by `validateFile` is dispatched by
`ModelLoader.loadModel` to one of the two delegated parsers. -/
theorem validate_ok_dispatch (file : File)
    (h : ModelLoader.validateFile file = .ok true) :
    ModelLoader.loadModel file = .gltfParser ∨
    ModelLoader.loadModel file = .stlParser := by
  unfold ModelLoader.validateFile at h
  by_cases hsup : (ModelLoader.supportedExtensions.any fun ext =>
      jsEndsWith (jsToLower file.name) ext) = true
  · simp only [ModelLoader.supportedExtensions, List.any_cons, List.any_nil,
      Bool.or_false, Bool.or_eq_true] at hsup
    unfold ModelLoader.loadModel
    rcases hsup with hglb | hgltf | hstl
    · left
      simp [hglb]
    · left
      simp [hgltf]
    · right
      have hglb : jsEndsWith (jsToLower file.name) ".glb" = false := by
        cases hg : jsEndsWith (jsToLower file.name) ".glb"
        · rfl
        · exact absurd (jsEndsWith_excl hstl hg (by decide) (by decide))
            not_false
      have hgltf : jsEndsWith (jsToLower file.name) ".gltf" = false := by
        cases hg : jsEndsWith (jsToLower file.name) ".gltf"
        · rfl
        · exact absurd (jsEndsWith_excl hstl hg (by decide) (by decide))
            not_false
      simp [hglb, hgltf, hstl]
  · rw [Bool.not_eq_true] at hsup
    simp [hsup] at h

/-- The model bookkeeping fields after `ARMode.onSessionEnd`: the viewer
reference survives, the placed reference is cleared. -/
theorem onSessionEnd_fields (s : AppState) :
    (ARMode.onSessionEnd s).viewerCurrentModel = s.viewerCurrentModel ∧
    (ARMode.onSessionEnd s).placedModel = none := by
  unfold ARMode.onSessionEnd ARMode.removePlacedModel
  obtain ⟨-, hrv, hrp, -⟩ := removeReticle_fields
    { s with xrSessionActive := false, xrRefSpaceActive := false,
             hitTestSourceActive := false }
  split
  · rename_i heq
    exact ⟨hrv, rfl⟩
  · rename_i heq
    exact ⟨hrv, heq⟩

/-- The startup support checks reaching `sSupported`. -/
theorem reachable_sSupported : Reachable false sSupported := by
  have h0 : Relation.ReflTransGen Step (WebGLARApp.initState false) sInit :=
    Relation.ReflTransGen.refl
  have h1 : Relation.ReflTransGen Step (WebGLARApp.initState false)
      (WebGLARApp.checkWebXRSupport sInit
        { ar := true, reason := "WebXR supported" } false "ua") :=
    h0.tail (Step.checkSupport sInit _ false "ua")
  exact h1.tail (Step.checkAR _ true)

/-- The load / enter-AR / tap run reaching `sPlaced` consists of app
operations only. -/
theorem reachable_sPlaced : Reachable false sPlaced := by
  have h3 : Relation.ReflTransGen Step (WebGLARApp.initState false)
      sLoaded := reachable_sSupported.tail (Step.load sSupported glbFile .ok)
  have h4 : Relation.ReflTransGen Step (WebGLARApp.initState false) sAR :=
    h3.tail (Step.click sLoaded oOk)
  exact h4.tail (Step.frame sAR tapFrame)

/-- C2 (amended): in every reachable state the scene's model objects are
exactly the current loaded model (if any) plus the currently placed AR
clone (if any) — so at most one of each, at most two in total; each
successful load replaces the loaded model and each placement replaces
only the placed clone. -/
theorem scene_models_loaded_and_placed {io : Bool} {s : AppState}
    (h : Reachable io s) :
    (modelIds s).Perm
      (s.viewerCurrentModel.toList ++ s.placedModel.toList) ∧
    (modelIds s).length ≤ 2 := by
  have h2 := appInv_reachable h
  refine ⟨h2.1, ?_⟩
  rw [h2.1.length_eq]
  have h3 : s.viewerCurrentModel.toList.length ≤ 1 := by
    cases s.viewerCurrentModel <;> simp
  have h4 : s.placedModel.toList.length ≤ 1 := by
    cases s.placedModel <;> simp
  rw [List.length_append]
  omega

/-- C2 witness: at the reachable state with a loaded model and a placed
clone, the scene's models are exactly those two. -/
theorem scene_models_loaded_and_placed_witness :
    (modelIds sPlaced).Perm
      (sPlaced.viewerCurrentModel.toList ++ sPlaced.placedModel.toList) ∧
    (modelIds sPlaced).length ≤ 2 :=
  scene_models_loaded_and_placed reachable_sPlaced

/-- C2 counterexample: after loading a model, entering AR and placing it,
the scene holds TWO model objects (the loaded model and its placed
clone), refuting "the scene contains at most one model object after
every operation" at this reachable state. -/
theorem scene_two_models_after_place :
    Reachable false sPlaced ∧ ¬ ((modelIds sPlaced).length ≤ 1) :=
  ⟨reachable_sPlaced, by decide⟩

/-- The AR-button update after load does not touch the scene. -/
theorem updateARButton_scene (s : AppState) :
    (WebGLARApp.updateARButtonAfterLoad s).scene = s.scene := by
  unfold WebGLARApp.updateARButtonAfterLoad
  split
  · rfl
  · split
    · rfl
    · rfl

/-- The scene after a successful install: the cleared scene plus the new
model. -/
theorem installLoadedModel_scene (s : AppState) :
    (WebGLARApp.installLoadedModel s).scene =
      (ModelViewer.clearCurrentModel s).scene ++
        [SceneNode.model (ModelViewer.clearCurrentModel s).nextId] := by
  unfold WebGLARApp.installLoadedModel
  show (WebGLARApp.updateARButtonAfterLoad
    (WebGLARApp.addParsedModel (ModelViewer.clearCurrentModel s))).scene = _
  rw [updateARButton_scene]
  rfl

/-- `clearCurrentModel` erases the current model node. -/
theorem clear_scene_some (s : AppState) (m : Nat)
    (hm : s.viewerCurrentModel = some m) :
    (ModelViewer.clearCurrentModel s).scene =
      s.scene.erase (SceneNode.model m) := by
  unfold ModelViewer.clearCurrentModel
  rw [hm]

/-- The scene after `onSessionEnd` with a placed clone: reticle removal
followed by erasure of the clone. -/
theorem onSessionEnd_scene_some (s : AppState) (p : Nat)
    (hp : s.placedModel = some p) :
    (ARMode.onSessionEnd s).scene =
      ((ARMode.removeReticle
        { s with xrSessionActive := false, xrRefSpaceActive := false,
                 hitTestSourceActive := false }).scene).erase
        (SceneNode.model p) := by
  unfold ARMode.onSessionEnd ARMode.removePlacedModel
  obtain ⟨-, -, hrp, -⟩ := removeReticle_fields
    { s with xrSessionActive := false, xrRefSpaceActive := false,
             hitTestSourceActive := false }
  rw [hrp]
  rw [show ({ s with xrSessionActive := false, xrRefSpaceActive := false, hitTestSourceActive := false } : AppState).placedModel = s.placedModel from rfl, hp]

/-- C4 (amended): on replacement the previous loaded model is removed
from the scene; on AR-session end the placed clone is removed, while the
loaded model itself stays in the scene (only its placed copy leaves the
render graph). -/
theorem model_removal_replace_and_session_end {io : Bool} {s : AppState}
    (hreach : Reachable io s) :
    (∀ m file, s.viewerCurrentModel = some m →
       ModelLoader.validateFile file = .ok true →
       SceneNode.model m ∉ (WebGLARApp.loadModel s file .ok).1.scene) ∧
    (∀ p, s.placedModel = some p →
       SceneNode.model p ∉ (ARMode.onSessionEnd s).scene) ∧
    (∀ m, s.viewerCurrentModel = some m →
       SceneNode.model m ∈ (ARMode.onSessionEnd s).scene) := by
  obtain ⟨hperm, hvn, hpn, hdist⟩ := appInv_reachable hreach
  refine ⟨?_, ?_, ?_⟩
  · intro m file hm hval
    unfold WebGLARApp.loadModel
    rcases validate_ok_dispatch file hval with hd | hd <;>
    · simp only [hval, hd]
      rw [installLoadedModel_scene,
        clear_scene_some { s with loadingShown := true, errorShown := none }
          m hm]
      obtain ⟨-, -, hc₃⟩ := clear_fields
        { s with loadingShown := true, errorShown := none }
      rw [hc₃]
      rw [List.mem_append]
      rintro (hin | hin)
      · rw [show ({ s with loadingShown := true, errorShown := none } : AppState).scene = s.scene from rfl] at hin
        rw [mem_model_iff, filterMap_erase_model] at hin
        have h6 := (hperm.erase m).mem_iff.mp hin
        rw [hm] at h6
        simp only [Option.toList_some, List.cons_append, List.nil_append,
          List.erase_cons_head] at h6
        cases hp : s.placedModel with
        | none =>
          rw [hp] at h6
          simp at h6
        | some q =>
          rw [hp] at h6
          simp only [Option.toList_some, List.mem_singleton] at h6
          exact hdist m (by rw [hm]; simp) q (by rw [hp]; simp) h6
      · simp only [List.mem_singleton, SceneNode.model.injEq] at hin
        have h7 := hvn m (by rw [hm]; simp)
        rw [show ({ s with loadingShown := true, errorShown := none } : AppState).nextId = s.nextId from rfl] at hin
        omega
  · intro p hp
    rw [onSessionEnd_scene_some s p hp]
    rw [mem_model_iff, filterMap_erase_model]
    intro hin
    obtain ⟨hrm, -, -, -⟩ := removeReticle_fields
      { s with xrSessionActive := false, xrRefSpaceActive := false,
               hitTestSourceActive := false }
    rw [show (ARMode.removeReticle { s with xrSessionActive := false, xrRefSpaceActive := false, hitTestSourceActive := false }).scene.filterMap sceneProj = modelIds (ARMode.removeReticle { s with xrSessionActive := false, xrRefSpaceActive := false, hitTestSourceActive := false }) from rfl, hrm] at hin
    replace hin : p ∈ (modelIds s).erase p := hin
    have h6 := (hperm.erase p).mem_iff.mp hin
    rw [hp] at h6
    cases hv : s.viewerCurrentModel with
    | none =>
      rw [hv] at h6
      simp at h6
    | some v =>
      have hvp : v ≠ p := hdist v (by rw [hv]; simp) p (by rw [hp]; simp)
      rw [hv] at h6
      simp only [Option.toList_some, List.cons_append, List.nil_append] at h6
      replace h6 : p ∈ (v :: [p]).erase p := h6
      rw [List.erase_cons_tail (by simp [hvp]), List.erase_cons_head] at h6
      simp only [List.mem_singleton] at h6
      exact hvp h6.symm
  · intro m hm
    obtain ⟨hperm2, -, -, -⟩ :=
      appInv_onSessionEnd s ⟨hperm, hvn, hpn, hdist⟩
    obtain ⟨hfv, hfp⟩ := onSessionEnd_fields s
    rw [hfv, hfp, hm] at hperm2
    rw [mem_model_iff]
    refine hperm2.mem_iff.mpr ?_
    simp

/-- C4 witness: at the reachable state `sPlaced` (loaded model id 0,
placed clone id 1), session end removes the clone and keeps the loaded
model. -/
theorem model_removal_witness :
    SceneNode.model 1 ∉ (ARMode.onSessionEnd sPlaced).scene ∧
    SceneNode.model 0 ∈ (ARMode.onSessionEnd sPlaced).scene :=
  ⟨(model_removal_replace_and_session_end reachable_sPlaced).2.1 1 (by decide),
   (model_removal_replace_and_session_end reachable_sPlaced).2.2 0 (by decide)⟩

/-- C4 counterexample: at the reachable state `sPlaced` the loaded model
(id 0, the current loaded model reference) is still in the scene after
the AR session ends, refuting "ending an AR session removes the current
loaded model from the scene". -/
theorem loaded_model_survives_session_end :
    Reachable false sPlaced ∧
    sPlaced.viewerCurrentModel = some 0 ∧
    sPlaced.currentModel = some 0 ∧
    (ARMode.onSessionEnd sPlaced).viewerCurrentModel = some 0 ∧
    SceneNode.model 0 ∈ (ARMode.onSessionEnd sPlaced).scene :=
  ⟨reachable_sPlaced, by decide, by decide, by decide, by decide⟩

/-- C9: load failure is atomic with respect to the displayed model — on a
validation error or a parse failure, `WebGLARApp.loadModel` leaves the
scene, the app's `currentModel`, the viewer's `currentModel` and the
placed clone untouched; the previous model is removed only on a
successful parse. -/
theorem load_failure_atomic (s : AppState) (file : File) (p : ParseOutcome)
    (m : Nat) (hm : s.currentModel = some m) :
    (∀ e, ModelLoader.validateFile file = .error e →
       (WebGLARApp.loadModel s file p).1.scene = s.scene ∧
       (WebGLARApp.loadModel s file p).1.currentModel = s.currentModel ∧
       (WebGLARApp.loadModel s file p).1.viewerCurrentModel =
         s.viewerCurrentModel ∧
       (WebGLARApp.loadModel s file p).1.placedModel = s.placedModel) ∧
    (∀ msg, p = .err msg →
       (WebGLARApp.loadModel s file p).1.scene = s.scene ∧
       (WebGLARApp.loadModel s file p).1.currentModel = s.currentModel ∧
       (WebGLARApp.loadModel s file p).1.viewerCurrentModel =
         s.viewerCurrentModel ∧
       (WebGLARApp.loadModel s file p).1.placedModel = s.placedModel) := by
  constructor
  · intro e he
    unfold WebGLARApp.loadModel
    rw [he]
    exact ⟨rfl, rfl, rfl, rfl⟩
  · intro msg hmsg
    subst hmsg
    unfold WebGLARApp.loadModel
    cases hval : ModelLoader.validateFile file with
    | error e => exact ⟨rfl, rfl, rfl, rfl⟩
    | ok b =>
      cases hd : ModelLoader.loadModel file with
      | unsupportedError msg2 => exact ⟨rfl, rfl, rfl, rfl⟩
      | gltfParser => exact ⟨rfl, rfl, rfl, rfl⟩
      | stlParser => exact ⟨rfl, rfl, rfl, rfl⟩

/-- C9 witness: loading a `.txt` file over the loaded state changes none
of the model state. -/
theorem load_failure_atomic_witness :
    (WebGLARApp.loadModel sLoaded txtFile .ok).1.scene = sLoaded.scene ∧
    (WebGLARApp.loadModel sLoaded txtFile .ok).1.currentModel =
      sLoaded.currentModel ∧
    (WebGLARApp.loadModel sLoaded txtFile .ok).1.viewerCurrentModel =
      sLoaded.viewerCurrentModel ∧
    (WebGLARApp.loadModel sLoaded txtFile .ok).1.placedModel =
      sLoaded.placedModel :=
  (load_failure_atomic sLoaded txtFile .ok 0 (by decide)).1
    "Unsupported file format. Supported formats: .glb, .gltf, .stl"
    (by decide)

/-- C10: with no model loaded, `enterAR` shows 'Please load a 3D model
first' and returns — no session request, no simulation start, no camera
request, and every other part of the state (AR flag, AR button, loading
indicator, viewer state) is unchanged. -/
theorem enterAR_no_model_rejected (s : AppState) (o : AROutcome)
    (h : s.currentModel = none) :
    WebGLARApp.enterAR s o =
      ({ s with errorShown := some "Please load a 3D model first" },
       [Ev.enterARCall]) ∧
    (WebGLARApp.enterAR s o).1.isARActive = s.isARActive ∧
    (WebGLARApp.enterAR s o).1.arButtonDisabled = s.arButtonDisabled ∧
    (WebGLARApp.enterAR s o).1.arButtonText = s.arButtonText ∧
    (WebGLARApp.enterAR s o).1.loadingShown = s.loadingShown ∧
    (WebGLARApp.enterAR s o).1.scene = s.scene ∧
    Ev.startSimulationCall ∉ (WebGLARApp.enterAR s o).2 ∧
    (∀ mo rf, Ev.requestSession mo rf ∉ (WebGLARApp.enterAR s o).2) ∧
    Ev.requestCamera ∉ (WebGLARApp.enterAR s o).2 := by
  have h1 : WebGLARApp.enterAR s o =
      ({ s with errorShown := some "Please load a 3D model first" },
       [Ev.enterARCall]) := by
    unfold WebGLARApp.enterAR
    rw [h]
  refine ⟨h1, ?_, ?_, ?_, ?_, ?_, ?_, ?_, ?_⟩ <;> rw [h1] <;> simp

/-- C10 witness: the fresh app state rejects `enterAR`. -/
theorem enterAR_no_model_rejected_witness :
    WebGLARApp.enterAR sInit oOk =
      ({ sInit with errorShown := some "Please load a 3D model first" },
       [Ev.enterARCall]) :=
  (enterAR_no_model_rejected sInit oOk rfl).1

/-- C5: on a device without WebXR, pressing the AR button with a model
loaded starts the AR simulation (AR becomes active) and never requests a
WebXR session. -/
theorem fallback_simulation_no_webxr (s : AppState) (o : AROutcome)
    (m : Nat) (hm : s.currentModel = some m) (hx : s.hasWebXR = false)
    (ha : s.isARActive = false) :
    (WebGLARApp.onARButtonClick s o).1.isARActive = true ∧
    Ev.startSimulationCall ∈ (WebGLARApp.onARButtonClick s o).2 ∧
    (∀ mo rf, Ev.requestSession mo rf ∉ (WebGLARApp.onARButtonClick s o).2) := by
  unfold WebGLARApp.onARButtonClick WebGLARApp.enterAR
  rw [ha, hm, hx]
  unfold WebGLARApp.startARSimulation WebGLARApp.startBasicARSimulation
  cases hc : o.cameraReq with
  | ok u => simp
  | error e => simp

/-- C5 witness: a loaded non-WebXR app starts the simulation on the AR
button. -/
theorem fallback_simulation_no_webxr_witness :
    (WebGLARApp.onARButtonClick
      (WebGLARApp.loadModel (WebGLARApp.initState true) glbFile .ok).1
      oOk).1.isARActive = true ∧
    Ev.startSimulationCall ∈ (WebGLARApp.onARButtonClick
      (WebGLARApp.loadModel (WebGLARApp.initState true) glbFile .ok).1
      oOk).2 ∧
    (∀ mo rf, Ev.requestSession mo rf ∉ (WebGLARApp.onARButtonClick
      (WebGLARApp.loadModel (WebGLARApp.initState true) glbFile .ok).1
      oOk).2) :=
  fallback_simulation_no_webxr _ oOk 0 (by decide) (by decide) (by decide)

/-- C6: whenever an AR session (or simulation) is active, the AR button
click runs `exitAR` — it never runs `enterAR` and never requests a second
session. -/
theorem ar_button_exits_when_active (s : AppState) (o : AROutcome)
    (h : s.isARActive = true) :
    WebGLARApp.onARButtonClick s o = WebGLARApp.exitAR s ∧
    (WebGLARApp.onARButtonClick s o).2 = [Ev.exitARCall] ∧
    Ev.enterARCall ∉ (WebGLARApp.onARButtonClick s o).2 ∧
    (∀ mo rf, Ev.requestSession mo rf ∉ (WebGLARApp.onARButtonClick s o).2) := by
  have h1 : WebGLARApp.onARButtonClick s o = WebGLARApp.exitAR s := by
    unfold WebGLARApp.onARButtonClick
    rw [h]
    simp
  have h2 : (WebGLARApp.exitAR s).2 = [Ev.exitARCall] := by
    unfold WebGLARApp.exitAR
    split
    · rfl
    · rfl
  refine ⟨h1, by rw [h1, h2], ?_, ?_⟩
  · rw [h1, h2]
    simp
  · intro mo rf
    rw [h1, h2]
    simp

/-- C6 witness: with the AR session active, the click exits. -/
theorem ar_button_exits_when_active_witness :
    WebGLARApp.onARButtonClick sAR oOk = WebGLARApp.exitAR sAR ∧
    (WebGLARApp.onARButtonClick sAR oOk).2 = [Ev.exitARCall] ∧
    Ev.enterARCall ∉ (WebGLARApp.onARButtonClick sAR oOk).2 ∧
    (∀ mo rf, Ev.requestSession mo rf ∉
      (WebGLARApp.onARButtonClick sAR oOk).2) :=
  ar_button_exits_when_active sAR oOk (by decide)

/-- C7: every error class is caught at the call that raised it and
surfaced through `showError` with no retry: a validation error (bad
format / oversize) never reaches a parser; a parse failure is reported
with the error's message after exactly one parser invocation; an AR
session rejection is reported with the error's message after exactly one
session request; a camera denial in the simulation leaves an error
message visible after exactly one camera request (the simulation falls
back to its no-camera mode instead of retrying). -/
theorem errors_caught_and_surfaced :
    (∀ (s : AppState) (file : File) (p : ParseOutcome) (e : String),
       ModelLoader.validateFile file = .error e →
       (WebGLARApp.loadModel s file p).1.errorShown =
         some ("Failed to load model: " ++ e) ∧
       (WebGLARApp.loadModel s file p).2 = []) ∧
    (∀ (s : AppState) (file : File) (msg : String),
       ModelLoader.validateFile file = .ok true →
       (WebGLARApp.loadModel s file (.err msg)).1.errorShown =
         some ("Failed to load model: " ++ msg) ∧
       ((WebGLARApp.loadModel s file (.err msg)).2.count Ev.parseGLTF +
        (WebGLARApp.loadModel s file (.err msg)).2.count Ev.parseSTL) = 1) ∧
    (∀ (s : AppState) (o : AROutcome) (m : Nat) (e : String),
       s.isARActive = false → s.currentModel = some m →
       s.hasWebXR = true → s.isARSupported = true →
       o.sessionReq = .error e →
       (WebGLARApp.onARButtonClick s o).1.errorShown =
         some ("AR failed: " ++ e) ∧
       (WebGLARApp.onARButtonClick s o).2.count
         (Ev.requestSession "immersive-ar" ["hit-test"]) = 1) ∧
    (∀ (s : AppState) (o : AROutcome) (m : Nat) (e : String),
       s.isARActive = false → s.currentModel = some m →
       s.hasWebXR = false → o.cameraReq = .error e →
       ((WebGLARApp.onARButtonClick s o).1.errorShown).isSome = true ∧
       (WebGLARApp.onARButtonClick s o).2.count Ev.requestCamera = 1) := by
  refine ⟨?_, ?_, ?_, ?_⟩
  · intro s file p e he
    unfold WebGLARApp.loadModel
    rw [he]
    exact ⟨rfl, rfl⟩
  · intro s file msg hval
    unfold WebGLARApp.loadModel
    rcases validate_ok_dispatch file hval with hd | hd <;>
      simp [hval, hd]
  · intro s o m e ha hm hx hsup he
    unfold WebGLARApp.onARButtonClick WebGLARApp.enterAR ARMode.startARSession
    rw [ha, hm]
    simp [hx, hsup, he]
  · intro s o m e ha hm hx he
    unfold WebGLARApp.onARButtonClick WebGLARApp.enterAR
      WebGLARApp.startARSimulation WebGLARApp.startBasicARSimulation
    rw [ha, hm]
    simp [hx, he]

/-- `onXRFrame` never changes the hit-test source flag. -/
theorem onXRFrame_hitTest_active (s : AppState) (f : ARMode.XRFrameData) :
    (ARMode.onXRFrame s f).1.hitTestSourceActive = s.hitTestSourceActive := by
  unfold ARMode.onXRFrame ARMode.placeModel
  repeat' split
  all_goals rfl

/-- With a hit-test source, `onXRFrame` reads the frame's hit-test
results exactly once. -/
theorem onXRFrame_trace_active (s : AppState) (f : ARMode.XRFrameData)
    (h : s.hitTestSourceActive = true) :
    (ARMode.onXRFrame s f).2 = [Ev.getHitTestResults] := by
  unfold ARMode.onXRFrame
  simp only [h, if_true]
  repeat' split
  all_goals rfl

/-- The frame loop performs one hit-test read per delivered frame. -/
theorem runFrames_trace (s : AppState) (frames : List ARMode.XRFrameData)
    (h : s.hitTestSourceActive = true) :
    (WebGLARApp.runFrames s frames).2 =
      List.replicate frames.length Ev.getHitTestResults := by
  induction frames generalizing s with
  | nil => rfl
  | cons f rest ih =>
    have hpres : (ARMode.onXRFrame s f).1.hitTestSourceActive = true := by
      rw [onXRFrame_hitTest_active]
      exact h
    have htr := onXRFrame_trace_active s f h
    show ((ARMode.onXRFrame s f).2 ++
      (WebGLARApp.runFrames (ARMode.onXRFrame s f).1 rest).2) =
      List.replicate (rest.length + 1) Ev.getHitTestResults
    rw [htr, ih _ hpres]
    rfl

/-- A fully successful `enterAR` on a WebXR device: the session state and
the ordered platform-call trace. -/
theorem enterAR_success (s : AppState) (o : AROutcome) (m : Nat)
    (hm : s.currentModel = some m) (hx : s.hasWebXR = true)
    (hsup : s.isARSupported = true)
    (h1 : o.sessionReq = .ok ()) (h2 : o.refSpaceLocalFloor = .ok ())
    (h3 : o.refSpaceViewer = .ok ()) (h4 : o.hitTestSrc = .ok ()) :
    WebGLARApp.enterAR s o =
      ({ s with loadingShown := false, xrSessionActive := true,
                xrRefSpaceActive := true,
                scene := s.scene ++ [SceneNode.reticle],
                reticlePresent := true, reticleVisible := false,
                hitTestSourceActive := true,
                isARActive := true, arButtonText := "Exit AR" },
       [Ev.enterARCall, Ev.requestSession "immersive-ar" ["hit-test"],
        Ev.requestRefSpace "local-floor", Ev.requestRefSpace "viewer",
        Ev.requestHitTestSource]) := by
  unfold WebGLARApp.enterAR ARMode.startARSession
  rw [hm]
  simp [hx, hsup, h1, h2, h3, h4]

/-- C8: the AR session setup performs its platform calls in order —
session request (for 'immersive-ar' with required feature 'hit-test'),
then the reference spaces, then the hit-test source, and only after all
of them the per-frame hit-test reads (exactly one read per frame); when a
step rejects, no later step runs. -/
theorem ar_session_setup_order (s : AppState) (o : AROutcome) (m : Nat)
    (frames : List ARMode.XRFrameData)
    (hm : s.currentModel = some m) (hx : s.hasWebXR = true)
    (ha : s.isARActive = false) (hsup : s.isARSupported = true) :
    (o.sessionReq = .ok () → o.refSpaceLocalFloor = .ok () →
     o.refSpaceViewer = .ok () → o.hitTestSrc = .ok () →
     (WebGLARApp.enterARAndRun s o frames).2 =
       [Ev.enterARCall, Ev.requestSession "immersive-ar" ["hit-test"],
        Ev.requestRefSpace "local-floor", Ev.requestRefSpace "viewer",
        Ev.requestHitTestSource] ++
       List.replicate frames.length Ev.getHitTestResults) ∧
    (∀ e, o.sessionReq = .error e →
       (∀ k, Ev.requestRefSpace k ∉ (WebGLARApp.enterARAndRun s o frames).2) ∧
       Ev.requestHitTestSource ∉ (WebGLARApp.enterARAndRun s o frames).2 ∧
       Ev.getHitTestResults ∉ (WebGLARApp.enterARAndRun s o frames).2) ∧
    (∀ e, o.refSpaceLocalFloor = .error e →
       Ev.requestRefSpace "viewer" ∉ (WebGLARApp.enterARAndRun s o frames).2 ∧
       Ev.requestHitTestSource ∉ (WebGLARApp.enterARAndRun s o frames).2 ∧
       Ev.getHitTestResults ∉ (WebGLARApp.enterARAndRun s o frames).2) ∧
    (∀ e, o.refSpaceViewer = .error e →
       Ev.requestHitTestSource ∉ (WebGLARApp.enterARAndRun s o frames).2 ∧
       Ev.getHitTestResults ∉ (WebGLARApp.enterARAndRun s o frames).2) ∧
    (∀ e, o.hitTestSrc = .error e →
       Ev.getHitTestResults ∉ (WebGLARApp.enterARAndRun s o frames).2) := by
  refine ⟨?_, ?_, ?_, ?_, ?_⟩
  · intro h1 h2 h3 h4
    unfold WebGLARApp.enterARAndRun
    rw [enterAR_success s o m hm hx hsup h1 h2 h3 h4]
    simp
    exact runFrames_trace _ frames rfl
  · intro e he
    unfold WebGLARApp.enterARAndRun WebGLARApp.enterAR ARMode.startARSession
    rw [hm]
    simp [hx, hsup, he, ha]
  · intro e he
    unfold WebGLARApp.enterARAndRun WebGLARApp.enterAR ARMode.startARSession
    rw [hm]
    cases hsr : o.sessionReq with
    | error e2 => simp [hx, hsup, hsr, ha]
    | ok u =>
      cases u
      simp [hx, hsup, hsr, he, ha]
  · intro e he
    unfold WebGLARApp.enterARAndRun WebGLARApp.enterAR ARMode.startARSession
    rw [hm]
    cases hsr : o.sessionReq with
    | error e2 => simp [hx, hsup, hsr, ha]
    | ok u =>
      cases u
      cases hlf : o.refSpaceLocalFloor with
      | error e3 => simp [hx, hsup, hsr, hlf, ha]
      | ok u2 =>
        cases u2
        simp [hx, hsup, hsr, hlf, he, ha]
  · intro e he
    unfold WebGLARApp.enterARAndRun WebGLARApp.enterAR ARMode.startARSession
    rw [hm]
    cases hsr : o.sessionReq with
    | error e2 => simp [hx, hsup, hsr, ha]
    | ok u =>
      cases u
      cases hlf : o.refSpaceLocalFloor with
      | error e3 => simp [hx, hsup, hsr, hlf, ha]
      | ok u2 =>
        cases u2
        cases hvw : o.refSpaceViewer with
        | error e4 => simp [hx, hsup, hsr, hlf, hvw, ha]
        | ok u3 =>
          cases u3
          simp [hx, hsup, hsr, hlf, hvw, he, ha]

/-- C8 witness: the successful session setup over the loaded state, with
one delivered frame, produces exactly the ordered trace. -/
theorem ar_session_setup_order_witness :
    (WebGLARApp.enterARAndRun sLoaded oOk [tapFrame]).2 =
      [Ev.enterARCall, Ev.requestSession "immersive-ar" ["hit-test"],
       Ev.requestRefSpace "local-floor", Ev.requestRefSpace "viewer",
       Ev.requestHitTestSource] ++
      List.replicate 1 Ev.getHitTestResults :=
  (ar_session_setup_order sLoaded oOk 0 [tapFrame] (by decide) (by decide)
    (by decide) (by decide)).1 rfl rfl rfl rfl
